import Mathlib

/-
Verification model of the OverflowList custom element
(src/assets/overflow-list.js).

The component partitions its child items between a default ("visible")
slot and an "overflow" slot based on layout measurements, maintains an
overflow counter, a placeholder width, a "more" indicator, a
minimum-reached attribute, and dispatches OverflowMinimumEvent
notifications.  Layout measurement (getBoundingClientRect) is performed
by the browser; it enters the model as an environment assigning a top
coordinate and a width to each item index, plus the top coordinate of
the "more" slot, all read after the component has enabled wrapping and
promoted the "more" slot to the front of the visual order.
-/

set_option maxRecDepth 4000

/-- The name of the unnamed default slot (`defaultSlot.name` is `""`). -/
def defaultSlotName : String := ""

/-- The name of the overflow slot (`slot[name="overflow"]`). -/
def overflowSlotName : String := "overflow"

/-- Layout measurements read during a reflow pass: `moreTop` is
`moreSlot.getBoundingClientRect().top`; `top i` and `width i` are
`elements[i].getBoundingClientRect().top/.width`, measured after
flex-wrap has been enabled and the "more" slot promoted. -/
structure LayoutEnv where
  moreTop : Int
  top : Nat → Int
  width : Nat → Int

/-- Observable state of one OverflowList instance.  `slots` holds each
item's `slot` attribute in DOM order; `orders` each item's `style.order`.
`minimumItems` is the parsed `minimum-items` attribute, `minimumReached`
the presence of the `minimum-reached` attribute.  Style properties are
`Option` fields (`none` = property not set).  `overflowCountVar` is the
numeric value of the `--overflow-count` custom property and
`listCounterReset` the count in the `counter-reset` declaration.
`scheduled` is the `#scheduled` flag, `pending` records that a coalesced
`requestAnimationFrame`/`setTimeout` callback is queued, and `events` is
the log of dispatched OverflowMinimumEvent payloads, oldest first. -/
structure OverflowState where
  slots : List String
  orders : List (Option Int)
  minimumItems : Option Nat
  minimumReached : Bool
  disabled : Option String
  listHeight : Option Int
  listFlexWrap : Option String
  listCounterReset : Option Nat
  listOverflow : Option String
  overflowCountVar : Option Nat
  placeholderHidden : Bool
  placeholderWidth : Option Int
  placeholderDisplay : Option String
  moreHidden : Bool
  moreOrder : Option Int
  resizeObserved : Bool
  mutationObserved : Bool
  scheduled : Bool
  pending : Bool
  events : List Bool
deriving Repr, DecidableEq

/-- Source `#observeChanges`: reconnect the resize and mutation observers. -/
def observeChanges (s : OverflowState) : OverflowState :=
  { s with resizeObserved := true, mutationObserved := true }

/-- Source `#unobserveChanges`: disconnect the resize and mutation observers. -/
def unobserveChanges (s : OverflowState) : OverflowState :=
  { s with resizeObserved := false, mutationObserved := false }

/-- Source `#moveItemsToDefaultSlot`: every element assigned to the overflow
slot has its `slot` attribute set back to the default slot's name. -/
def postMoveSlots (s : OverflowState) : List String :=
  s.slots.map (fun sl => if sl = overflowSlotName then defaultSlotName else sl)

/-- The indices of `defaultSlot.assignedElements()` as read by
`#reflowItems` right after `#moveItemsToDefaultSlot`: the items whose
slot attribute is then the default slot's name. -/
def reflowElements (s : OverflowState) : List Nat :=
  (List.range s.slots.length).filter
    (fun i => (postMoveSlots s).getD i overflowSlotName == defaultSlotName)

/-- The `overflowingElements` list of a pass: elements whose measured
top is strictly greater than the "more" slot's top. -/
def overflowingOf (env : LayoutEnv) (s : OverflowState) : List Nat :=
  (reflowElements s).filter (fun i => decide (env.top i > env.moreTop))

/-- The `visibleElements` list of a pass: elements whose measured top is
not strictly greater than the "more" slot's top. -/
def visibleOf (env : LayoutEnv) (s : OverflowState) : List Nat :=
  (reflowElements s).filter (fun i => !(decide (env.top i > env.moreTop)))

/-- The `hasOverflow` flag of a pass. -/
def hasOverflowOf (env : LayoutEnv) (s : OverflowState) : Bool :=
  !(overflowingOf env s).isEmpty

/-- The `placeholderWidth` local of a pass: the measured width of the
first overflowing element, 0 if none overflows. -/
def placeholderWidthOf (env : LayoutEnv) (s : OverflowState) : Int :=
  match (overflowingOf env s).head? with
  | some i => env.width i
  | none => 0

/-- The per-item slot reassignment loop: each element of the pass gets
the overflow slot's name iff it is in `overflowingElements`, the default
slot's name otherwise; items not assigned to the default slot keep their
(post-move) slot attribute. -/
def assignSlots (env : LayoutEnv) (s : OverflowState) : List String :=
  (List.range s.slots.length).map (fun i =>
    if (reflowElements s).contains i then
      (if decide (env.top i > env.moreTop) then overflowSlotName else defaultSlotName)
    else (postMoveSlots s).getD i defaultSlotName)

/-- Source `element?.style.setProperty('order', v)` / `removeProperty('order')`
on the optional `lastVisibleElement`, identified by its item index. -/
def setItemOrder (idx : Option Nat) (v : Option Int) (s : OverflowState) : OverflowState :=
  match idx with
  | some j => { s with orders := s.orders.set j v }
  | none => s

/-- Source `#updateMinimumReached(visibleElements)`: when `minimum-items` is
set, computes `minimumReached = visibleElements.length < minimumItems`,
sets or removes the `minimum-reached` attribute accordingly, and always
dispatches an OverflowMinimumEvent carrying that boolean. -/
def updateMinimumReached (visibleCount : Nat) (s : OverflowState) : OverflowState :=
  match s.minimumItems with
  | some m =>
    let r := decide (visibleCount < m)
    { s with minimumReached := r, events := s.events ++ [r] }
  | none => s

/-- Source `#moveItemsToDefaultSlot` as a state transformer. -/
def moveItemsToDefault (s : OverflowState) : OverflowState :=
  { s with slots := postMoveSlots s }

/-- Source `if (listHeight > 0) list.style.setProperty('height', ...)`. -/
def lockHeight (listHeight : Int) (s : OverflowState) : OverflowState :=
  if listHeight > 0 then { s with listHeight := some listHeight } else s

/-- The measurement overrides: enable flex-wrap on the list, hide the
placeholder, promote the "more" slot to order -1 and show it. -/
def enableWrapMeasurement (s : OverflowState) : OverflowState :=
  { s with listFlexWrap := some "wrap", placeholderHidden := true,
           moreOrder := some (-1), moreHidden := false }

/-- Source `if (hasOverflow) moreSlot.style.removeProperty('order')`. -/
def removeMorePromotion (hasOverflow : Bool) (s : OverflowState) : OverflowState :=
  if hasOverflow then { s with moreOrder := none } else s

/-- The counter writes: `counter-reset`, `--overflow-count`, and the
"more" visibility `moreSlot.hidden = !hasOverflow`. -/
def writeCounters (cnt : Nat) (hasOverflow : Bool) (s : OverflowState) : OverflowState :=
  { s with listCounterReset := some cnt, overflowCountVar := some cnt,
           moreHidden := !hasOverflow }

/-- Source `if (hasOverflow)`: set the placeholder width and show it. -/
def writePlaceholder (hasOverflow : Bool) (w : Int) (s : OverflowState) : OverflowState :=
  if hasOverflow then { s with placeholderWidth := some w, placeholderHidden := false } else s

/-- Source `list.style.setProperty('overflow', 'unset')`. -/
def resetListOverflow (s : OverflowState) : OverflowState :=
  { s with listOverflow := some "unset" }

/-- Source `hasOverflow && this.#updateMinimumReached(visibleElements)`. -/
def maybeUpdateMinimumReached (hasOverflow : Bool) (visibleCount : Nat)
    (s : OverflowState) : OverflowState :=
  if hasOverflow then updateMinimumReached visibleCount s else s

/-- Source `#reflowItems(listHeight, lastVisibleElement)`, step by step from
the source: disconnect observers, move items back to the default slot,
early-return (re-observing) when there are no elements; otherwise apply
the measurement overrides (optional height lock, flex-wrap, placeholder
hidden, "more" promoted and shown, pinned element promoted), partition
by top coordinate against the "more" slot's top, undo the promotions
("more" only when overflow occurred), reassign slots, set the counters,
adjust "more"/placeholder visibility and width, reset `overflow`, update
the minimum-reached state only when overflow occurred, and re-observe. -/
def reflowItems (env : LayoutEnv) (listHeight : Int) (lastVisibleElement : Option Nat)
    (s : OverflowState) : OverflowState :=
  if (reflowElements s).isEmpty then
    observeChanges (moveItemsToDefault (unobserveChanges s))
  else
    observeChanges
      (maybeUpdateMinimumReached (hasOverflowOf env s) (visibleOf env s).length
        (resetListOverflow
          (writePlaceholder (hasOverflowOf env s) (placeholderWidthOf env s)
            (writeCounters (overflowingOf env s).length (hasOverflowOf env s)
              { setItemOrder lastVisibleElement none
                  (removeMorePromotion (hasOverflowOf env s)
                    (setItemOrder lastVisibleElement (some (-1))
                      (enableWrapMeasurement
                        (lockHeight listHeight
                          (moveItemsToDefault (unobserveChanges s)))))) with
                slots := assignSlots env s }))))

/-- Source `#reset`: disconnect the observers, move every item back to the
default slot, remove the list's height, zero the overflow counter. -/
def resetComp (s : OverflowState) : OverflowState :=
  { moveItemsToDefault (unobserveChanges s) with listHeight := none, overflowCountVar := some 0 }

/-- Source `showAll()`: zero and hide the placeholder, then set
`disabled="true"`, whose attributeChangedCallback synchronously runs
`#reset`. -/
def showAll (s : OverflowState) : OverflowState :=
  let s1 := { s with placeholderWidth := some 0, placeholderDisplay := some "none" }
  resetComp { s1 with disabled := some "true" }

/-- Source `#handleChange`: coalescing observer callback — if a reflow is
already scheduled do nothing, otherwise mark scheduled and queue the
deferred callback. -/
def handleChange (s : OverflowState) : OverflowState :=
  if s.scheduled then s else { s with scheduled := true, pending := true }

/-- The queued `requestAnimationFrame`/`setTimeout` callback firing: if
one is pending it runs `#reflowItems()` then clears `#scheduled`. -/
def firePending (env : LayoutEnv) (s : OverflowState) : OverflowState :=
  if s.pending then
    let t := reflowItems env 0 none s
    { t with scheduled := false, pending := false }
  else s

/-- Source `disconnectedCallback`: disconnects the resize and mutation
observers (the intersection observer, not modelled here, likewise).  It
does not cancel a queued coalesced callback. -/
def disconnectedCb (s : OverflowState) : OverflowState :=
  unobserveChanges s

/-- A resize notification: the browser invokes the observer callback
only while the component is being observed. -/
def notifyResize (s : OverflowState) : OverflowState :=
  if s.resizeObserved then handleChange s else s

/-- A mutation notification: the browser invokes the observer callback
only while the component is being observed. -/
def notifyMutation (s : OverflowState) : OverflowState :=
  if s.mutationObserved then handleChange s else s

/-- Events that can reach a live component between user actions: resize
notifications, child-list mutation notifications, and the firing of a
queued coalesced reflow callback. -/
inductive OEvent where
  | resizeSignal : OEvent
  | mutationSignal : OEvent
  | timerFire : LayoutEnv → OEvent

/-- Apply one event to the component state. -/
def stepEvent : OEvent → OverflowState → OverflowState
  | OEvent.resizeSignal, s => notifyResize s
  | OEvent.mutationSignal, s => notifyMutation s
  | OEvent.timerFire env, s => firePending env s

/-- Apply a sequence of events, oldest first. -/
def runEvents (evs : List OEvent) (s : OverflowState) : OverflowState :=
  evs.foldl (fun s e => stepEvent e s) s

/-- The dynamic type of a DOM node returned by `querySelector`, as far
as the `instanceof` checks in `#initialize` distinguish them. -/
inductive DomKind where
  | slotEl : DomKind
  | genericEl : DomKind
  | ulEl : DomKind
  | liEl : DomKind
deriving Repr, DecidableEq

/-- Source `x instanceof HTMLElement` (`null` fails every instanceof check). -/
def isHTMLElement : Option DomKind → Bool
  | none => false
  | some _ => true

/-- Source `x instanceof HTMLSlotElement`. -/
def isSlotElement : Option DomKind → Bool
  | some DomKind.slotEl => true
  | _ => false

/-- Source `x instanceof HTMLUListElement`. -/
def isUListElement : Option DomKind → Bool
  | some DomKind.ulEl => true
  | _ => false

/-- Source `x instanceof HTMLLIElement`. -/
def isLIElement : Option DomKind → Bool
  | some DomKind.liEl => true
  | _ => false

/-- The six `querySelector` results `#initialize` inspects inside the
shadow root (`none` when the selector matches nothing). -/
structure ShadowParts where
  defaultSlot : Option DomKind
  overflowSlot : Option DomKind
  moreSlot : Option DomKind
  overflow : Option DomKind
  list : Option DomKind
  placeholder : Option DomKind
deriving Repr, DecidableEq

/-- Instance state touched by `#initialize`: the `#refs` record and the
registration of the `reflow` event listener. -/
structure InitState where
  refs : Option ShadowParts
  reflowListenerAdded : Bool
deriving Repr, DecidableEq

/-- Source `#initialize`: throws `Missing shadow root` when there is no shadow
root; throws `Invalid element types in <OverflowList />` when any of the
six queried nodes is absent or fails its `instanceof` check; only then
assigns `#refs` and registers the `reflow` listener. -/
def initializeComp (shadow : Option ShadowParts) (s : InitState) : Except String InitState :=
  match shadow with
  | none => Except.error "Missing shadow root"
  | some p =>
    if !(isSlotElement p.defaultSlot) || !(isSlotElement p.overflowSlot)
        || !(isSlotElement p.moreSlot) || !(isHTMLElement p.overflow)
        || !(isUListElement p.list) || !(isLIElement p.placeholder) then
      Except.error "Invalid element types in <OverflowList />"
    else
      Except.ok { s with refs := some p, reflowListenerAdded := true }

/-- The claim's structural precondition, from the spec's words: a shadow
root exists and every required internal element is present with its
required type. -/
def requiredStructurePresent : Option ShadowParts → Bool
  | none => false
  | some p =>
    isSlotElement p.defaultSlot && isSlotElement p.overflowSlot && isSlotElement p.moreSlot
      && isHTMLElement p.overflow && isUListElement p.list && isLIElement p.placeholder

/-- Modelled from the spec: the browser's flex-wrap line assignment,
which is not code of this repository.  Per the spec's cumulative-width
formulation, items are placed left to right; an item joins the current
line when the accumulated width including it still fits the container
width `W` (an exact fit counts as on the line), and otherwise starts the
next line.  `used` is the width already occupied on the current line and
`line` its index. -/
def assignLines (W : Int) : Int → Nat → List Int → List Nat
  | _, _, [] => []
  | used, line, w :: ws =>
    if used + w ≤ W then line :: assignLines W (used + w) line ws
    else (line + 1) :: assignLines W w (line + 1) ws

/-- The layout environment induced by the flex-wrap model for container
width `W`, "more"-slot width `moreW` and item widths `ws`: the "more"
slot is promoted to the front, so it sits on line 0 and each item's top
coordinate is its line index. -/
def layoutEnvOf (W moreW : Int) (ws : List Int) : LayoutEnv :=
  { moreTop := 0,
    top := fun i => Int.ofNat ((assignLines W moreW 0 ws).getD i 0),
    width := fun i => ws.getD i 0 }

/-- A freshly attached instance holding `n` items, all in the default
slot, no styles set, observers connected, nothing scheduled. -/
def mkState (n : Nat) : OverflowState :=
  { slots := List.replicate n defaultSlotName
    orders := List.replicate n none
    minimumItems := none
    minimumReached := false
    disabled := none
    listHeight := none
    listFlexWrap := none
    listCounterReset := none
    listOverflow := none
    overflowCountVar := none
    placeholderHidden := false
    placeholderWidth := none
    placeholderDisplay := none
    moreHidden := true
    moreOrder := none
    resizeObserved := true
    mutationObserved := true
    scheduled := false
    pending := false
    events := [] }

/-- The size of the Visible bucket a reflow pass computes on a fresh
`n`-item instance under the flex-wrap layout model. -/
def visibleCountAfter (W moreW : Int) (ws : List Int) : Nat :=
  ((reflowItems (layoutEnvOf W moreW ws) 0 none (mkState ws.length)).slots.countP
    (fun sl => sl == defaultSlotName))

set_option maxHeartbeats 2000000 in
/-- Full characterisation of a reflow pass on a non-empty item
collection: the net effect of `#reflowItems` on every state field. -/
lemma reflowItems_eq_of_ne (env : LayoutEnv) (h : Int) (pin : Option Nat) (s : OverflowState)
    (hne : (reflowElements s).isEmpty = false) :
  reflowItems env h pin s =
  { slots := assignSlots env s
    orders := match pin with
      | some j => s.orders.set j none
      | none => s.orders
    minimumItems := s.minimumItems
    minimumReached := if hasOverflowOf env s then
        (match s.minimumItems with
         | some m => decide ((visibleOf env s).length < m)
         | none => s.minimumReached)
      else s.minimumReached
    disabled := s.disabled
    listHeight := if h > 0 then some h else s.listHeight
    listFlexWrap := some "wrap"
    listCounterReset := some (overflowingOf env s).length
    listOverflow := some "unset"
    overflowCountVar := some (overflowingOf env s).length
    placeholderHidden := !(hasOverflowOf env s)
    placeholderWidth := if hasOverflowOf env s then some (placeholderWidthOf env s) else s.placeholderWidth
    placeholderDisplay := s.placeholderDisplay
    moreHidden := !(hasOverflowOf env s)
    moreOrder := if hasOverflowOf env s then none else some (-1)
    resizeObserved := true
    mutationObserved := true
    scheduled := s.scheduled
    pending := s.pending
    events := s.events ++
      (if hasOverflowOf env s then
        (match s.minimumItems with
         | some m => [decide ((visibleOf env s).length < m)]
         | none => [])
       else []) } := by
  unfold reflowItems
  simp only [hne, Bool.false_eq_true, if_false]
  generalize hov : hasOverflowOf env s = ov
  generalize hvl : (visibleOf env s).length = vl
  generalize hoc : (overflowingOf env s).length = oc2
  generalize hpw : placeholderWidthOf env s = pwv
  generalize has : assignSlots env s = asl
  obtain ⟨sl, od, mi, mr, di, lh, fw, cr, lo, oc, ph, pw, pd, mh, mo, ro, mu, sc, pe, ev⟩ := s
  cases ov <;> cases pin <;> cases mi <;> by_cases hh : h > 0 <;>
    simp [observeChanges, unobserveChanges, moveItemsToDefault, lockHeight,
      enableWrapMeasurement, removeMorePromotion, writeCounters, writePlaceholder,
      resetListOverflow, maybeUpdateMinimumReached, updateMinimumReached, setItemOrder,
      hh, List.set_set]

/-- A reflow pass on an empty item collection only moves items back to
the default slot and reconnects the observers. -/
lemma reflowItems_eq_of_empty (env : LayoutEnv) (h : Int) (pin : Option Nat) (s : OverflowState)
    (he : (reflowElements s).isEmpty = true) :
  reflowItems env h pin s =
    { s with slots := postMoveSlots s, resizeObserved := true, mutationObserved := true } := by
  unfold reflowItems
  simp only [he, if_true]
  obtain ⟨sl, od, mi, mr, di, lh, fw, cr, lo, oc, ph, pw, pd, mh, mo, ro, mu, sc, pe, ev⟩ := s
  simp [observeChanges, unobserveChanges, moveItemsToDefault, postMoveSlots]

/-- Every exit path of `#reflowItems` ends in `#observeChanges`. -/
lemma reflowItems_reobserves (env : LayoutEnv) (h : Int) (pin : Option Nat) (s : OverflowState) :
    (reflowItems env h pin s).resizeObserved = true ∧
      (reflowItems env h pin s).mutationObserved = true := by
  unfold reflowItems
  split <;> simp [observeChanges]

/-- Layout in which item 0 shares the "more" slot's line and every
later item sits on the line below it. -/
def envSplit : LayoutEnv :=
  { moreTop := 0, top := fun i => if i = 0 then 0 else 1, width := fun _ => 5 }

/-- Layout in which every item shares the "more" slot's line. -/
def envAllFit : LayoutEnv :=
  { moreTop := 0, top := fun _ => 0, width := fun _ => 5 }

/-- Layout in which every item sits below the "more" slot's line; each
item measures 7 wide. -/
def envAllOver : LayoutEnv :=
  { moreTop := 0, top := fun _ => 1, width := fun _ => 7 }

/-- The OverflowMinimumEvent payloads one reflow pass appends to the
event log: one event per pass that has items, overflow and a
`minimum-items` attribute; none otherwise. -/
def eventsEmittedBy (env : LayoutEnv) (s : OverflowState) : List Bool :=
  if (reflowElements s).isEmpty then []
  else if hasOverflowOf env s then
    match s.minimumItems with
    | some m => [decide ((visibleOf env s).length < m)]
    | none => []
  else []

/-- The `minimum-reached` attribute after one reflow pass: recomputed
only when the pass has items, overflow and a `minimum-items` attribute;
otherwise left at its previous value. -/
def minimumReachedAfter (env : LayoutEnv) (s : OverflowState) : Bool :=
  if (reflowElements s).isEmpty then s.minimumReached
  else if hasOverflowOf env s then
    match s.minimumItems with
    | some m => decide ((visibleOf env s).length < m)
    | none => s.minimumReached
  else s.minimumReached

/-- Two-item instance with `minimum-items="1"`, used to run two
back-to-back reflow passes under the unchanged layout `envSplit`. -/
def c1Start : OverflowState := { mkState 2 with minimumItems := some 1 }

/-- The state after one reflow pass on `c1Start`. -/
def c1Once : OverflowState := reflowItems envSplit 0 none c1Start

/-- The state after a second, identical reflow pass. -/
def c1Twice : OverflowState := reflowItems envSplit 0 none c1Once

/-- Claim C1 (counterexample): two reflow passes under an unchanged
layout produce the identical bucket assignment and no transition of the
minimumReached state, yet two OverflowMinimumEvents are dispatched — the
event is not deduplicated per state transition. -/
theorem overflowMinimum_event_duplicated_on_identical_reflows :
    c1Twice.slots = c1Once.slots
      ∧ c1Once.minimumReached = c1Start.minimumReached
      ∧ c1Twice.minimumReached = c1Once.minimumReached
      ∧ c1Start.events.length = 0
      ∧ c1Twice.events.length = 2 := by decide

/-- Claim C1 (amended): a reflow pass appends exactly one
OverflowMinimumEvent whenever the pass has items, at least one item
overflows and `minimum-items` is set — carrying the current
minimumReached value, with no deduplication across passes — and appends
none otherwise. -/
theorem overflowMinimum_event_per_overflowing_pass (env : LayoutEnv) (h : Int)
    (pin : Option Nat) (s : OverflowState) :
    (reflowItems env h pin s).events = s.events ++ eventsEmittedBy env s := by
  cases hne : (reflowElements s).isEmpty
  · rw [reflowItems_eq_of_ne env h pin s hne]
    simp [eventsEmittedBy, hne]
  · rw [reflowItems_eq_of_empty env h pin s hne]
    simp [eventsEmittedBy, hne]

/-- One-item instance with `minimum-items="5"`. -/
def c2Start : OverflowState := { mkState 1 with minimumItems := some 5 }

/-- Claim C2 (counterexample): a reflow pass in which no item overflows
leaves `minimum-reached` unset even though `minimum-items` is set and
the Visible bucket (1 item) is strictly smaller than it (5). -/
theorem minimumReached_stale_on_pass_without_overflow :
    c2Start.minimumItems = some 5
      ∧ (visibleOf envAllFit c2Start).length = 1
      ∧ (reflowItems envAllFit 0 none c2Start).minimumReached = false := by decide

/-- Claim C2 (amended): after a reflow pass the `minimum-reached`
attribute is recomputed — true iff the Visible bucket is strictly
smaller than `minimum-items` — only when the pass has items, at least
one item overflows and `minimum-items` is set; any other pass leaves the
attribute at its previous value. -/
theorem minimumReached_updated_only_on_overflowing_pass (env : LayoutEnv) (h : Int)
    (pin : Option Nat) (s : OverflowState) :
    (reflowItems env h pin s).minimumReached = minimumReachedAfter env s := by
  cases hne : (reflowElements s).isEmpty
  · rw [reflowItems_eq_of_ne env h pin s hne]
    simp [minimumReachedAfter, hne]
  · rw [reflowItems_eq_of_empty env h pin s hne]
    simp [minimumReachedAfter, hne]

/-- Claim C10: every invocation of a reflow pass — including the
empty-collection early return, and for every value of the disabled
attribute — ends with both the resize and the mutation observer
reconnected. -/
theorem reflow_always_reconnects_observers (env : LayoutEnv) (h : Int) (pin : Option Nat)
    (s : OverflowState) :
    (reflowItems env h pin s).resizeObserved = true ∧
      (reflowItems env h pin s).mutationObserved = true :=
  reflowItems_reobserves env h pin s

/-- A shadow root whose unnamed default slot is missing; every other
required node is present with its required type. -/
def shadowMissingDefault : ShadowParts :=
  { defaultSlot := none, overflowSlot := some DomKind.slotEl, moreSlot := some DomKind.slotEl,
    overflow := some DomKind.genericEl, list := some DomKind.ulEl,
    placeholder := some DomKind.liEl }

/-- The instance state before initialization. -/
def initState0 : InitState := { refs := none, reflowListenerAdded := false }

/-- Claim C3 (counterexample): with the default slot absent,
`#initialize` is not a silent no-op — it throws
`Invalid element types in <OverflowList />` (and with no shadow root it
throws `Missing shadow root`). -/
theorem initialize_throws_on_missing_structure :
    initializeComp (some shadowMissingDefault) initState0
        = Except.error "Invalid element types in <OverflowList />"
      ∧ initializeComp none initState0 = Except.error "Missing shadow root" := by
  constructor <;> rfl

/-- Claim C3 (amended): `#initialize` succeeds exactly when the shadow
root exists and all six required internal nodes are present with their
required types; in every other case it throws an Error — leaving the
instance state unchanged, since the throw precedes every mutation —
rather than returning silently. -/
theorem initialize_ok_iff_structure_present (sh : Option ShadowParts) (st : InitState) :
    (initializeComp sh st).isOk = requiredStructurePresent sh := by
  cases sh with
  | none => rfl
  | some p =>
    cases ha : isSlotElement p.defaultSlot <;>
      cases hb : isSlotElement p.overflowSlot <;>
      cases hc : isSlotElement p.moreSlot <;>
      cases hd : isHTMLElement p.overflow <;>
      cases he : isUListElement p.list <;>
      cases hf : isLIElement p.placeholder <;>
      simp [initializeComp, requiredStructurePresent, ha, hb, hc, hd, he, hf,
        Except.isOk, Except.toBool]

/-- The state reached by scheduling a coalesced reflow on a fresh
one-item instance, then detaching, then letting the queued callback
fire under a layout in which the item overflows. -/
def c4After : OverflowState :=
  firePending envAllOver (disconnectedCb (handleChange (mkState 1)))

/-- Claim C4 (counterexample): after detaching mid-coalescing-delay the
deferred reflow still executes — it moves the item to the overflow slot,
writes the list's flex-wrap style, and even reconnects the observers,
all after `disconnectedCallback` ran. -/
theorem detach_does_not_cancel_pending_reflow :
    (mkState 1).slots = [defaultSlotName]
      ∧ (mkState 1).listFlexWrap = none
      ∧ c4After.slots = [overflowSlotName]
      ∧ c4After.listFlexWrap = some "wrap"
      ∧ c4After.resizeObserved = true
      ∧ c4After.mutationObserved = true := by decide

/-- Claim C4 (amended): `disconnectedCallback` only disconnects the
observers; it does not cancel the queued coalesced callback, so a reflow
scheduled before detach still runs `#reflowItems` in full after detach
(performing its DOM writes and reconnecting both observers). -/
theorem pending_reflow_still_runs_after_detach (env : LayoutEnv) (s : OverflowState)
    (hsc : s.scheduled = false) :
    firePending env (disconnectedCb (handleChange s)) =
        { reflowItems env 0 none (disconnectedCb (handleChange s)) with
            scheduled := false, pending := false }
      ∧ (firePending env (disconnectedCb (handleChange s))).resizeObserved = true
      ∧ (firePending env (disconnectedCb (handleChange s))).mutationObserved = true := by
  have heq : firePending env (disconnectedCb (handleChange s)) =
      { reflowItems env 0 none (disconnectedCb (handleChange s)) with
          scheduled := false, pending := false } := by
    simp [handleChange, hsc, disconnectedCb, unobserveChanges, firePending]
  refine ⟨heq, ?_, ?_⟩ <;> rw [heq]
  · exact (reflowItems_reobserves env 0 none _).1
  · exact (reflowItems_reobserves env 0 none _).2

/-- Claim C4 (amended, witness). -/
theorem pending_reflow_still_runs_after_detach_witness :
    (mkState 1).scheduled = false
      ∧ (firePending envAllOver (disconnectedCb (handleChange (mkState 1))) =
            { reflowItems envAllOver 0 none (disconnectedCb (handleChange (mkState 1))) with
                scheduled := false, pending := false }
          ∧ (firePending envAllOver (disconnectedCb (handleChange (mkState 1)))).resizeObserved = true
          ∧ (firePending envAllOver (disconnectedCb (handleChange (mkState 1)))).mutationObserved = true) :=
  ⟨rfl, pending_reflow_still_runs_after_detach envAllOver (mkState 1) rfl⟩

/-- A state in which neither observer is connected and no coalesced
callback is queued absorbs every change signal and timer firing. -/
lemma stepEvent_quiescent (e : OEvent) (s : OverflowState) (h1 : s.resizeObserved = false)
    (h2 : s.mutationObserved = false) (h3 : s.pending = false) : stepEvent e s = s := by
  cases e <;> simp [stepEvent, notifyResize, notifyMutation, firePending, h1, h2, h3]

/-- A quiescent state absorbs every sequence of events. -/
lemma runEvents_quiescent (evs : List OEvent) (s : OverflowState) (h1 : s.resizeObserved = false)
    (h2 : s.mutationObserved = false) (h3 : s.pending = false) : runEvents evs s = s := by
  induction evs with
  | nil => rfl
  | cons e t ih =>
    show runEvents t (stepEvent e s) = s
    rw [stepEvent_quiescent e s h1 h2 h3]
    exact ih

/-- After `#moveItemsToDefaultSlot` no item is assigned to the overflow
slot. -/
lemma postMove_no_overflow (s : OverflowState) :
    (postMoveSlots s).all (fun sl => sl != overflowSlotName) = true := by
  rw [List.all_eq_true]
  intro x hx
  rw [postMoveSlots, List.mem_map] at hx
  obtain ⟨a, _, rfl⟩ := hx
  by_cases hae : a = overflowSlotName
  · simp [hae, defaultSlotName, overflowSlotName]
  · simp [hae]

/-- One-item instance whose item has been reflowed into the overflow
slot. -/
def c5Start : OverflowState := reflowItems envAllOver 0 none (mkState 1)

/-- One-item instance on which a change notification has just queued a
coalesced reflow callback (`#handleChange` ran, nothing fired yet). -/
def c5Queued : OverflowState := handleChange (mkState 1)

/-- The same instance right after `showAll()`: disabled, all items in
the default slot, observers disconnected — but the callback queued
before the call is still pending. -/
def c5Disabled : OverflowState := showAll c5Queued

/-- Claim C5 (counterexample): a coalesced callback queued before
`showAll()` still fires afterwards; `#reflowItems` has no disabled
check and unconditionally re-connects the observers, so a subsequent
resize notification is delivered, schedules a new coalesced reflow, and
that reflow moves the item to the Overflow bucket while
`disabled="true"` — the bucket assignment does not remain all-Visible
and the disabled condition was never toggled off. -/
theorem stale_callback_defeats_showAll_suppression :
    c5Disabled.disabled = some "true"
      ∧ c5Disabled.slots = [defaultSlotName]
      ∧ c5Disabled.resizeObserved = false
      ∧ (runEvents [OEvent.timerFire envAllFit] c5Disabled).resizeObserved = true
      ∧ (runEvents [OEvent.timerFire envAllFit, OEvent.resizeSignal,
            OEvent.timerFire envAllOver] c5Disabled).slots = [overflowSlotName]
      ∧ (runEvents [OEvent.timerFire envAllFit, OEvent.resizeSignal,
            OEvent.timerFire envAllOver] c5Disabled).disabled = some "true" := by decide

/-- Claim C5 (amended): after `showAll()` — which disables the
component, returns every item to the default slot and disconnects the
observers — provided no coalesced reflow callback was queued before the
call, any sequence of resize signals, mutation signals and timer
firings leaves the state untouched, with no item in the Overflow
bucket. -/
theorem showAll_suppresses_subsequent_reflows (s : OverflowState) (evs : List OEvent)
    (hp : s.pending = false) :
    runEvents evs (showAll s) = showAll s
      ∧ (showAll s).slots.all (fun sl => sl != overflowSlotName) = true := by
  constructor
  · apply runEvents_quiescent
    · simp [showAll, resetComp, moveItemsToDefault, unobserveChanges]
    · simp [showAll, resetComp, moveItemsToDefault, unobserveChanges]
    · simp [showAll, resetComp, moveItemsToDefault, unobserveChanges, hp]
  · show ((showAll s).slots.all (fun sl => sl != overflowSlotName)) = true
    simp only [showAll, resetComp, moveItemsToDefault]
    exact postMove_no_overflow _

/-- Claim C5 (amended, witness): a concrete overflowed instance with
nothing pending, `showAll`, then a resize signal, a mutation signal and
a timer firing. -/
theorem showAll_suppresses_subsequent_reflows_witness :
    c5Start.pending = false
      ∧ (runEvents [OEvent.resizeSignal, OEvent.mutationSignal, OEvent.timerFire envAllFit]
            (showAll c5Start) = showAll c5Start
          ∧ (showAll c5Start).slots.all (fun sl => sl != overflowSlotName) = true) :=
  ⟨by decide, showAll_suppresses_subsequent_reflows c5Start
    [OEvent.resizeSignal, OEvent.mutationSignal, OEvent.timerFire envAllFit] (by decide)⟩

/-- One-item instance after a pass in which the item (7 wide)
overflowed: its placeholder width is 7. -/
def c6Mid : OverflowState := reflowItems envAllOver 0 none (mkState 1)

/-- Claim C6 (counterexample): a pass with no overflowing item does not
reset the placeholder width to 0 — the stale width written by the
previous overflowing pass (7) survives while overflow-count is 0. -/
theorem placeholder_width_stale_when_no_overflow :
    c6Mid.placeholderWidth = some 7
      ∧ (overflowingOf envAllFit c6Mid).length = 0
      ∧ (reflowItems envAllFit 0 none c6Mid).overflowCountVar = some 0
      ∧ (reflowItems envAllFit 0 none c6Mid).placeholderWidth = some 7 := by decide

/-- Claim C6 (amended): after a reflow pass on a non-empty collection
the overflow counter equals the Overflow bucket's size and the "more"
indicator is hidden iff no item overflows; when an item overflows the
placeholder width is set to the first overflowing item's width and the
placeholder shown, but when none overflows the placeholder is merely
hidden and its width style keeps its previous value. -/
theorem reflow_counters_and_placeholder (env : LayoutEnv) (h : Int) (pin : Option Nat)
    (s : OverflowState) (hne : (reflowElements s).isEmpty = false) :
    (reflowItems env h pin s).overflowCountVar = some (overflowingOf env s).length
      ∧ (reflowItems env h pin s).moreHidden = !(hasOverflowOf env s)
      ∧ (reflowItems env h pin s).placeholderWidth =
          (if hasOverflowOf env s then some (placeholderWidthOf env s) else s.placeholderWidth)
      ∧ (reflowItems env h pin s).placeholderHidden = !(hasOverflowOf env s) := by
  rw [reflowItems_eq_of_ne env h pin s hne]
  exact ⟨rfl, rfl, rfl, rfl⟩

/-- Claim C6 (amended, witness). -/
theorem reflow_counters_and_placeholder_witness :
    (reflowElements (mkState 1)).isEmpty = false
      ∧ ((reflowItems envAllOver 0 none (mkState 1)).overflowCountVar
            = some (overflowingOf envAllOver (mkState 1)).length
          ∧ (reflowItems envAllOver 0 none (mkState 1)).moreHidden
            = !(hasOverflowOf envAllOver (mkState 1))
          ∧ (reflowItems envAllOver 0 none (mkState 1)).placeholderWidth =
              (if hasOverflowOf envAllOver (mkState 1) then
                  some (placeholderWidthOf envAllOver (mkState 1))
                else (mkState 1).placeholderWidth)
          ∧ (reflowItems envAllOver 0 none (mkState 1)).placeholderHidden
            = !(hasOverflowOf envAllOver (mkState 1))) :=
  ⟨by decide, reflow_counters_and_placeholder envAllOver 0 none (mkState 1) (by decide)⟩

/-- Claim C7 (counterexample): a pass in which no item overflows ends
with the wrap enablement still applied (`flex-wrap: wrap` was `none`
before the pass) and the "more" slot's visual-order promotion still in
place (`order` still -1). -/
theorem measurement_overrides_not_restored :
    (mkState 1).listFlexWrap = none
      ∧ (mkState 1).moreOrder = none
      ∧ (overflowingOf envAllFit (mkState 1)).length = 0
      ∧ (reflowItems envAllFit 0 none (mkState 1)).listFlexWrap = some "wrap"
      ∧ (reflowItems envAllFit 0 none (mkState 1)).moreOrder = some (-1) := by decide

/-- Two-item instance with item orders already set, to exhibit the
pinned item's order removal. -/
def c7Start : OverflowState := { mkState 2 with orders := [some 3, some 5] }

/-- Claim C7 (amended): at the end of a pass with items, the pinned
item's order promotion is always removed (its order property is
cleared; with no pinned item the orders are untouched); the "more"
indicator's promotion is removed only when overflow occurred and is
left at -1 otherwise; and the wrap enablement is never undone —
`flex-wrap` remains `wrap` after every such pass. -/
theorem reflow_override_restoration (env : LayoutEnv) (h : Int) (s : OverflowState)
    (j : Nat) (hne : (reflowElements s).isEmpty = false) :
    (reflowItems env h (some j) s).orders = s.orders.set j none
      ∧ (reflowItems env h none s).orders = s.orders
      ∧ (reflowItems env h (some j) s).moreOrder
          = (if hasOverflowOf env s then none else some (-1))
      ∧ (reflowItems env h (some j) s).listFlexWrap = some "wrap" := by
  rw [reflowItems_eq_of_ne env h (some j) s hne, reflowItems_eq_of_ne env h none s hne]
  exact ⟨rfl, rfl, rfl, rfl⟩

/-- Claim C7 (amended, witness). -/
theorem reflow_override_restoration_witness :
    (reflowElements c7Start).isEmpty = false
      ∧ ((reflowItems envAllOver 0 (some 1) c7Start).orders = c7Start.orders.set 1 none
          ∧ (reflowItems envAllOver 0 none c7Start).orders = c7Start.orders
          ∧ (reflowItems envAllOver 0 (some 1) c7Start).moreOrder
              = (if hasOverflowOf envAllOver c7Start then none else some (-1))
          ∧ (reflowItems envAllOver 0 (some 1) c7Start).listFlexWrap = some "wrap") :=
  ⟨by decide, reflow_override_restoration envAllOver 0 c7Start 1 (by decide)⟩

/-- An element index of a pass is an index into the item list. -/
lemma mem_reflowElements_lt (s : OverflowState) (i : Nat) (hi : i ∈ reflowElements s) :
    i < s.slots.length := by
  rw [reflowElements] at hi
  exact List.mem_range.mp (List.mem_filter.mp hi).1

/-- A pass with a member element is not the empty early return. -/
lemma reflowElements_ne_of_mem (s : OverflowState) (i : Nat) (hi : i ∈ reflowElements s) :
    (reflowElements s).isEmpty = false := by
  cases hl : reflowElements s with
  | nil => rw [hl] at hi; exact absurd hi (List.not_mem_nil i)
  | cons a t => rfl

/-- The slot the reassignment loop gives the item at index `i`. -/
lemma getD_assignSlots (env : LayoutEnv) (s : OverflowState) (i : Nat)
    (hi : i < s.slots.length) :
    (assignSlots env s).getD i defaultSlotName =
      if (reflowElements s).contains i then
        (if decide (env.top i > env.moreTop) then overflowSlotName else defaultSlotName)
      else (postMoveSlots s).getD i defaultSlotName := by
  rw [assignSlots, List.getD_eq_getElem?_getD, List.getElem?_map, List.getElem?_range hi]
  rfl

/-- Claim C8: for every element of a reflow pass, the item ends in the
Overflow bucket iff its measured top is strictly greater than the "more"
slot's top; an item whose top exactly equals the "more" slot's top (same
line) ends in the Visible bucket. -/
theorem tie_break_equal_top_is_visible (env : LayoutEnv) (h : Int) (pin : Option Nat)
    (s : OverflowState) (i : Nat) (hi : i ∈ reflowElements s) :
    ((reflowItems env h pin s).slots.getD i defaultSlotName = overflowSlotName
        ↔ env.top i > env.moreTop)
      ∧ (env.top i = env.moreTop →
          (reflowItems env h pin s).slots.getD i defaultSlotName = defaultSlotName) := by
  have hne := reflowElements_ne_of_mem s i hi
  have hs : (reflowItems env h pin s).slots = assignSlots env s := by
    rw [reflowItems_eq_of_ne env h pin s hne]
  have hcon : (reflowElements s).contains i = true := List.elem_iff.mpr hi
  rw [hs, getD_assignSlots env s i (mem_reflowElements_lt s i hi), hcon]
  constructor
  · by_cases htop : env.top i > env.moreTop
    · simp [htop]
    · simp [htop, overflowSlotName, defaultSlotName]
  · intro hEq
    have htop : ¬(env.top i > env.moreTop) := by rw [hEq]; exact lt_irrefl _
    simp [htop]

/-- Claim C8 (witness): one item whose top equals the "more" slot's top
stays Visible. -/
theorem tie_break_equal_top_is_visible_witness :
    0 ∈ reflowElements (mkState 1)
      ∧ (((reflowItems envAllFit 0 none (mkState 1)).slots.getD 0 defaultSlotName
              = overflowSlotName
            ↔ envAllFit.top 0 > envAllFit.moreTop)
          ∧ (envAllFit.top 0 = envAllFit.moreTop →
              (reflowItems envAllFit 0 none (mkState 1)).slots.getD 0 defaultSlotName
                = defaultSlotName)) :=
  ⟨by decide, tie_break_equal_top_is_visible envAllFit 0 none (mkState 1) 0 (by decide)⟩

/-- The flex-wrap model assigns a line to every item. -/
lemma assignLines_length (W used : Int) (line : Nat) (ws : List Int) :
    (assignLines W used line ws).length = ws.length := by
  induction ws generalizing used line with
  | nil => rfl
  | cons w t ih => rw [assignLines]; split <;> simp [ih]

/-- Once past the first line, no later item returns to line 0. -/
lemma assignLines_countP_pos (W used : Int) (line : Nat) (ws : List Int) (h : 0 < line) :
    (assignLines W used line ws).countP (fun x => x == 0) = 0 := by
  induction ws generalizing used line with
  | nil => rfl
  | cons w t ih =>
    rw [assignLines]
    have hbeq : (line == 0) = false := by
      simp [Nat.pos_iff_ne_zero.mp h]
    split
    · rw [List.countP_cons, ih (used + w) line h, hbeq]
      rfl
    · have hbeq2 : ((line + 1) == 0) = false := by simp
      rw [List.countP_cons, ih w (line + 1) (Nat.succ_pos line), hbeq2]
      rfl

/-- Pointwise wider items (and a fuller current line) put at most as
many items on line 0. -/
lemma assignLines_countP_mono (W : Int) {ws ws' : List Int}
    (hf : List.Forall₂ (· ≤ ·) ws ws') :
    ∀ {used used' : Int}, used ≤ used' →
      (assignLines W used' 0 ws').countP (fun x => x == 0)
        ≤ (assignLines W used 0 ws).countP (fun x => x == 0) := by
  induction hf with
  | nil => intro u u' hu; exact le_refl _
  | @cons a b l1 l2 hab htail ih =>
    intro used used' hu
    rw [assignLines, assignLines]
    by_cases hfit' : used' + b ≤ W
    · have hfit : used + a ≤ W := le_trans (add_le_add hu hab) hfit'
      rw [if_pos hfit', if_pos hfit, List.countP_cons, List.countP_cons]
      have hrec := ih (add_le_add hu hab)
      simp only [beq_self_eq_true, if_true]
      omega
    · rw [if_neg hfit', List.countP_cons]
      rw [assignLines_countP_pos W b (0 + 1) l2 (by omega)]
      have hbeq : ((0 + 1 : Nat) == 0) = false := by decide
      rw [hbeq]
      simp

/-- Counting over indices via `getD` equals counting over the list. -/
lemma countP_getD_range (l : List Nat) (p : Nat → Bool) :
    (List.range l.length).countP (fun i => p (l.getD i 0)) = l.countP p := by
  induction l with
  | nil => rfl
  | cons a t ih =>
    rw [List.length_cons, List.range_succ_eq_map, List.countP_cons, List.countP_map]
    have hcomp : ((fun i => p ((a :: t).getD i 0)) ∘ Nat.succ) = fun i => p (t.getD i 0) := by
      funext i
      simp [List.getD_cons_succ]
    rw [hcomp, ih, List.countP_cons]
    simp [List.getD_cons_zero]

/-- On a fresh instance every item is an element of the pass. -/
lemma reflowElements_mkState (n : Nat) : reflowElements (mkState n) = List.range n := by
  rw [reflowElements]
  have hlen : (mkState n).slots.length = n := by simp [mkState]
  rw [hlen]
  apply List.filter_eq_self.mpr
  intro i hi
  have hin : i < n := List.mem_range.mp hi
  have hpost : postMoveSlots (mkState n) = List.replicate n defaultSlotName := by
    simp [postMoveSlots, mkState, List.map_replicate, overflowSlotName, defaultSlotName]
  rw [hpost, List.getD_eq_getElem?_getD, List.getElem?_replicate]
  simp [hin]

/-- On a fresh instance the reassignment loop maps each index straight
through the top-coordinate comparison. -/
lemma assignSlots_mkState (env : LayoutEnv) (n : Nat) :
    assignSlots env (mkState n) =
      (List.range n).map
        (fun i => if decide (env.top i > env.moreTop) then overflowSlotName
                  else defaultSlotName) := by
  rw [assignSlots]
  have hlen : (mkState n).slots.length = n := by simp [mkState]
  rw [hlen]
  apply List.map_congr_left
  intro i hi
  have hmem : i ∈ reflowElements (mkState n) := by
    rw [reflowElements_mkState]
    exact hi
  have hcon : (reflowElements (mkState n)).contains i = true := List.elem_iff.mpr hmem
  simp [hcon]
  intro h
  exact absurd hmem h

/-- Under the flex-wrap layout model, the Visible bucket a reflow pass
computes is exactly the set of items the model puts on line 0. -/
lemma visibleCountAfter_eq_countP (W moreW : Int) (ws : List Int) :
    visibleCountAfter W moreW ws = (assignLines W moreW 0 ws).countP (fun x => x == 0) := by
  cases hws : ws with
  | nil =>
    rw [visibleCountAfter]
    have he : (reflowElements (mkState ([] : List Int).length)).isEmpty = true := by
      rw [reflowElements_mkState]
      rfl
    rw [reflowItems_eq_of_empty _ _ _ _ he]
    simp [mkState, postMoveSlots, assignLines]
  | cons w t =>
    rw [visibleCountAfter]
    have hne : (reflowElements (mkState (w :: t).length)).isEmpty = false := by
      rw [reflowElements_mkState, List.length_cons, List.range_succ]
      simp
    have hs : (reflowItems (layoutEnvOf W moreW (w :: t)) 0 none (mkState (w :: t).length)).slots
        = assignSlots (layoutEnvOf W moreW (w :: t)) (mkState (w :: t).length) := by
      rw [reflowItems_eq_of_ne _ _ _ _ hne]
    rw [hs, assignSlots_mkState, List.countP_map]
    have hlines : (assignLines W moreW 0 (w :: t)).length = (w :: t).length :=
      assignLines_length W moreW 0 (w :: t)
    rw [← hlines]
    rw [← countP_getD_range (assignLines W moreW 0 (w :: t)) (fun x => x == 0)]
    apply List.countP_congr
    intro i hi
    simp only [Function.comp_apply, layoutEnvOf]
    by_cases hz : (assignLines W moreW 0 (w :: t)).getD i 0 = 0
    · simp [hz, defaultSlotName, overflowSlotName]
    · have hpos : (0 : Int) < Int.ofNat ((assignLines W moreW 0 (w :: t)).getD i 0) := by
        exact Int.ofNat_pos.mpr (Nat.pos_of_ne_zero hz)
      simp [hz, hpos, defaultSlotName, overflowSlotName]

/-- Claim C9: for a fixed container width and "more" width, pointwise
widening of the items never enlarges the Visible bucket a reflow pass
computes (monotonicity of the fitting boundary). -/
theorem visible_count_antitone_in_item_widths (W moreW : Int) (ws ws' : List Int)
    (hmono : List.Forall₂ (· ≤ ·) ws ws') :
    visibleCountAfter W moreW ws' ≤ visibleCountAfter W moreW ws := by
  rw [visibleCountAfter_eq_countP, visibleCountAfter_eq_countP]
  exact assignLines_countP_mono W hmono (le_refl moreW)

/-- Claim C9 (witness): widening `[3, 3]` to `[4, 9]` in a width-10
container with a "more" slot of width 2 shrinks the Visible bucket. -/
theorem visible_count_antitone_witness :
    List.Forall₂ (· ≤ ·) ([3, 3] : List Int) [4, 9]
      ∧ visibleCountAfter 10 2 [4, 9] ≤ visibleCountAfter 10 2 [3, 3] :=
  have hmono : List.Forall₂ (· ≤ ·) ([3, 3] : List Int) [4, 9] :=
    List.Forall₂.cons (by norm_num) (List.Forall₂.cons (by norm_num) List.Forall₂.nil)
  ⟨hmono, visible_count_antitone_in_item_widths 10 2 [3, 3] [4, 9] hmono⟩
